import Mathlib

/-
  Verification development for the ts-poc repository: a typed service
  registry (src/src/services/container.ts), an HTTP transport client
  (HttpClient.mapToHttpResponse), a client-credentials token issuer
  (AuthorizationService), and a time source (SystemTimeProvider).
  The JavaScript code is shallowly embedded: runtime values stored in the
  registry become the inductive JSValue (with JavaScript truthiness),
  the Map-backed registry becomes an ordered association list with the
  set/get/has/clear semantics of a JS Map, fallible methods return Except,
  and Date instants are modelled by their millisecond value (plus an
  explicit allocation heap where reference identity matters).
-/

deriving instance DecidableEq for Except

namespace TsPoc

/-- A JavaScript runtime value as storable in the service container.
Objects are identified by an allocation id; numbers are modelled as
integers (the repository only stores object instances and the claims
only need the falsy values null, 0, false and the empty string). -/
inductive JSValue where
  | vUndefined
  | vNull
  | vBool (b : Bool)
  | vNum (n : Int)
  | vStr (s : String)
  | vObj (id : Nat)
  deriving DecidableEq, Repr

/-- JavaScript truthiness: undefined, null, false, 0 and the empty
string are falsy; every object is truthy. -/
def jsTruthy : JSValue → Bool
  | .vUndefined => false
  | .vNull => false
  | .vBool b => b
  | .vNum n => n != 0
  | .vStr s => s != ""
  | .vObj _ => true

/-- The backing store of ServiceContainer: a JS Map from string keys to
values, as an ordered association list with distinct keys maintained by
mapSet. -/
def ContainerMap : Type := List (String × JSValue)

/-- JS Map.prototype.set: replace the value in place when the key is
present, otherwise append a new entry. -/
def mapSet : ContainerMap → String → JSValue → ContainerMap
  | [], k, v => [(k, v)]
  | (k', v') :: rest, k, v =>
    if k' = k then (k', v) :: rest
    else (k', v') :: mapSet rest k v

/-- The service container state (container.ts): the private services map. -/
def ServiceContainer : Type := ContainerMap

/-- A fresh ServiceContainer: new Map(). -/
def ServiceContainer.empty : ServiceContainer := []

/-- register(name, instance): this.services.set(name, instance). -/
def ServiceContainer.register (c : ServiceContainer) (name : String) (v : JSValue) :
    ServiceContainer :=
  mapSet c name v

/-- The error message thrown by get: Service (quoted name) not registered. -/
def notRegisteredMsg (name : String) : String :=
  "Service \x27" ++ name ++ "\x27 not registered"

/-- get(name): const service = this.services.get(name); the throw is
guarded by the JS truthiness test if (!service), so an absent key
(service = undefined) and a registered falsy value both throw. -/
def ServiceContainer.get (c : ServiceContainer) (name : String) : Except String JSValue :=
  let service := (List.lookup name c).getD JSValue.vUndefined
  if jsTruthy service then Except.ok service
  else Except.error (notRegisteredMsg name)

/-- has(name): this.services.has(name). -/
def ServiceContainer.has (c : ServiceContainer) (name : String) : Bool :=
  (List.lookup name c).isSome

/-- clear(): this.services.clear(). -/
def ServiceContainer.clear (_ : ServiceContainer) : ServiceContainer := []

/-- get as a state transformer: JS Map.prototype.get reads the table and
writes nothing, so the outgoing state is the incoming one. -/
def ServiceContainer.getOp (c : ServiceContainer) (name : String) :
    Except String JSValue × ServiceContainer :=
  (c.get name, c)

/-- has as a state transformer: JS Map.prototype.has reads the table and
writes nothing. -/
def ServiceContainer.hasOp (c : ServiceContainer) (name : String) :
    Bool × ServiceContainer :=
  (c.has name, c)

/-- An observation on the container: a get or a has call. -/
inductive ReadOp where
  | getK (name : String)
  | hasK (name : String)
  deriving DecidableEq, Repr

/-- Run a sequence of observations, threading the container state through
the state-transformer forms of get and has. -/
def runReads (c : ServiceContainer) : List ReadOp → ServiceContainer
  | [] => c
  | ReadOp.getK n :: ops => runReads (c.getOp n).2 ops
  | ReadOp.hasK n :: ops => runReads (c.hasOp n).2 ops

/-- The string sub occurs as a substring of s. -/
def strContains (s sub : String) : Prop := ∃ l r, s = l ++ sub ++ r

/- Association-list lemmas about mapSet. -/

theorem lookup_mapSet_self (c : ContainerMap) (k : String) (v : JSValue) :
    List.lookup k (mapSet c k v) = some v := by
  induction c with
  | nil => simp [mapSet, List.lookup]
  | cons p rest ih =>
    obtain ⟨k', v'⟩ := p
    by_cases h : k' = k
    · subst h
      simp [mapSet, List.lookup]
    · have hb : (k == k') = false := beq_eq_false_iff_ne.mpr (Ne.symm h)
      simp [mapSet, h, List.lookup, hb, ih]

theorem lookup_mapSet_ne (c : ContainerMap) (k k' : String) (v : JSValue)
    (h : k' ≠ k) : List.lookup k' (mapSet c k v) = List.lookup k' c := by
  have hb : (k' == k) = false := beq_eq_false_iff_ne.mpr h
  induction c with
  | nil => simp [mapSet, List.lookup, hb]
  | cons p rest ih =>
    obtain ⟨k₀, v₀⟩ := p
    by_cases hk : k₀ = k
    · subst hk
      simp [mapSet, List.lookup, hb]
    · cases hkk : k' == k₀ <;> simp [mapSet, hk, List.lookup, hkk, ih]

/- HTTP transport client (HttpClient.mapToHttpResponse in the http
service module). -/

/-- The raw result of the underlying axios exchange: status, status text,
headers and the already-deserialized body, before normalization. -/
structure AxiosResponse (T : Type) where
  status : Nat
  statusText : String
  headers : List (String × String)
  data : T
  deriving DecidableEq, Repr

/-- The normalized transport response (HttpResponse in http-types.ts).
The ensureSuccessStatusCode closure of the source is modelled by the
standalone function ensureSuccessStatusCode below, which reads exactly
the fields the closure captures. -/
structure HttpResponseM (T : Type) where
  status : Nat
  statusText : String
  headers : List (String × String)
  data : T
  isSuccessStatusCode : Bool
  deriving DecidableEq, Repr

/-- HttpClient.mapToHttpResponse: copies the axios fields and derives
isSuccessStatusCode as status at least 200 and below 300. -/
def mapToHttpResponse {T : Type} (response : AxiosResponse T) : HttpResponseM T :=
  { status := response.status
    statusText := response.statusText
    headers := response.headers
    data := response.data
    isSuccessStatusCode := decide (200 ≤ response.status) && decide (response.status < 300) }

/-- The message of the error thrown by ensureSuccessStatusCode. -/
def httpErrorMessage (status : Nat) (statusText : String) : String :=
  "HTTP Error " ++ toString status ++ ": " ++ statusText

/-- The ensureSuccessStatusCode closure: throws when the captured
isSuccessStatusCode is false, naming the status and status text. -/
def ensureSuccessStatusCode {T : Type} (r : HttpResponseM T) : Except String Unit :=
  if r.isSuccessStatusCode then Except.ok ()
  else Except.error (httpErrorMessage r.status r.statusText)

/- Time source (SystemTimeProvider in time-provider.ts). Instants are
Date values; a Date wraps a millisecond count (getTime). Where only the
value matters an instant is its Int millisecond count; reference
identity of Date objects is modelled by the DateHeap allocator below. -/

/-- SystemTimeProvider.addSeconds value arithmetic:
date.getTime() + seconds * 1000. -/
def addSecondsMillis (t s : Int) : Int := t + s * 1000

/-- An allocation heap of Date objects: next is the first unallocated
reference, millis gives each references millisecond value. -/
structure DateHeap where
  next : Nat
  millis : Nat → Int

/-- new Date(m): allocate a fresh Date reference holding m. -/
def DateHeap.newDate (h : DateHeap) (m : Int) : DateHeap × Nat :=
  (⟨h.next + 1, fun r => if r = h.next then m else h.millis r⟩, h.next)

/-- date.getTime(). -/
def DateHeap.getTime (h : DateHeap) (d : Nat) : Int := h.millis d

/-- SystemTimeProvider.addSeconds(date, seconds):
new Date(date.getTime() + seconds * 1000). -/
def DateHeap.addSeconds (h : DateHeap) (d : Nat) (s : Int) : DateHeap × Nat :=
  h.newDate (addSecondsMillis (h.getTime d) s)

/- Token issuer (AuthorizationService). -/

/-- AuthConfig from auth-types.ts. -/
structure AuthConfig where
  tenantId : String
  clientId : String
  clientSecret : String
  scope : String
  deriving DecidableEq, Repr

/-- The AAD token endpoint response shape (AADTokenResponse). -/
structure AADTokenResponse where
  access_token : String
  token_type : String
  expires_in : Int
  deriving DecidableEq, Repr

/-- AuthToken from auth-types.ts; expiresAt is the Date millisecond
value computed through the time source. -/
structure AuthToken where
  accessToken : String
  tokenType : String
  expiresIn : Int
  expiresAt : Int
  deriving DecidableEq, Repr

/-- The injected time source as seen by the token issuer: now() returns
a fixed readable instant (millisecond value); addSeconds is the
SystemTimeProvider arithmetic addSecondsMillis. -/
structure TimeProviderM where
  nowMillis : Int
  deriving DecidableEq, Repr

/-- timeProvider.now(). -/
def TimeProviderM.now (tp : TimeProviderM) : Int := tp.nowMillis

/-- timeProvider.addSeconds(date, seconds) on instant values. -/
def TimeProviderM.addSeconds (_ : TimeProviderM) (t s : Int) : Int :=
  addSecondsMillis t s

/-- HttpRequest.method (restricted union in http-types.ts). -/
inductive HttpMethod where
  | GET
  | POST
  deriving DecidableEq, Repr

/-- HttpRequest from http-types.ts. The optional body is a string here:
the token issuer always sends a string body, the only body this
development inspects. -/
structure HttpRequest where
  url : String
  method : HttpMethod
  headers : List (String × String)
  body : Option String
  deriving DecidableEq, Repr

/- application/x-www-form-urlencoded serialization, as performed by
new URLSearchParams(record).toString(). -/

/-- UTF-8 encoding of one code point, as a list of byte values. -/
def utf8Bytes (c : Char) : List Nat :=
  let n := c.toNat
  if n < 0x80 then [n]
  else if n < 0x800 then [0xC0 + n / 0x40, 0x80 + n % 0x40]
  else if n < 0x10000 then
    [0xE0 + n / 0x1000, 0x80 + n / 0x40 % 0x40, 0x80 + n % 0x40]
  else
    [0xF0 + n / 0x40000, 0x80 + n / 0x1000 % 0x40, 0x80 + n / 0x40 % 0x40, 0x80 + n % 0x40]

/-- Bytes the form serializer leaves unescaped: ASCII alphanumerics and
asterisk, hyphen, period, underscore. -/
def isFormUnreserved (b : Nat) : Bool :=
  (decide (0x30 ≤ b) && decide (b ≤ 0x39))
  || (decide (0x41 ≤ b) && decide (b ≤ 0x5A))
  || (decide (0x61 ≤ b) && decide (b ≤ 0x7A))
  || b == 0x2A || b == 0x2D || b == 0x2E || b == 0x5F

/-- Uppercase hexadecimal digit for a value below 16. -/
def hexDigitChar (n : Nat) : Char :=
  if n < 10 then Char.ofNat (0x30 + n) else Char.ofNat (0x41 + (n - 10))

/-- Percent-encoding of one byte under the form serializer: space
becomes plus, unreserved bytes stand for themselves, every other byte
becomes a percent escape with uppercase hex digits. -/
def formByteEncode (b : Nat) : String :=
  if b = 0x20 then "+"
  else if isFormUnreserved b then String.singleton (Char.ofNat b)
  else String.mk [Char.ofNat 0x25, hexDigitChar (b / 16), hexDigitChar (b % 16)]

/-- Form URL-encoding of a string: UTF-8 encode, then escape each byte. -/
def formUrlEncode (s : String) : String :=
  String.join (s.data.map (fun c => String.join ((utf8Bytes c).map formByteEncode)))

/-- One serialized key-value pair of URLSearchParams. -/
def encodePair (p : String × String) : String :=
  formUrlEncode p.1 ++ "=" ++ formUrlEncode p.2

/-- URLSearchParams.toString(): each pair serialized, joined by
ampersands in insertion order. -/
def urlSearchParamsToString : List (String × String) → String
  | [] => ""
  | [p] => encodePair p
  | p :: ps => encodePair p ++ "&" ++ urlSearchParamsToString ps

/-- AuthorizationService.createTokenRequestBody: serialize the fixed
grant type with the configured client id, client secret and scope. -/
def createTokenRequestBody (config : AuthConfig) : String :=
  urlSearchParamsToString
    [("grant_type", "client_credentials"),
     ("client_id", config.clientId),
     ("client_secret", config.clientSecret),
     ("scope", config.scope)]

/-- AuthorizationService.createTokenRequest: POST to the tenant-templated
AAD token endpoint with the form content type and the serialized body. -/
def createTokenRequest (config : AuthConfig) : HttpRequest :=
  { url := "https://login.microsoftonline.com/" ++ config.tenantId ++ "/oauth2/v2.0/token"
    method := HttpMethod.POST
    headers := [("Content-Type", "application/x-www-form-urlencoded")]
    body := some (createTokenRequestBody config) }

/-- AuthorizationService.mapToAuthToken: the expiry instant comes from
the injected time source as addSeconds(now(), expires_in). -/
def mapToAuthToken (tp : TimeProviderM) (aadResponse : AADTokenResponse) : AuthToken :=
  let expiresAt := tp.addSeconds tp.now aadResponse.expires_in
  { accessToken := aadResponse.access_token
    tokenType := aadResponse.token_type
    expiresIn := aadResponse.expires_in
    expiresAt := expiresAt }

/-- AuthorizationService.getToken, instrumented with the list of requests
handed to httpClient.send: build the request, perform the single
exchange, run ensureSuccessStatusCode (propagating its error unchanged),
and otherwise map the body to an AuthToken. -/
def getToken (config : AuthConfig) (tp : TimeProviderM)
    (send : HttpRequest → HttpResponseM AADTokenResponse) :
    Except String AuthToken × List HttpRequest :=
  let request := createTokenRequest config
  let response := send request
  match ensureSuccessStatusCode response with
  | Except.error e => (Except.error e, [request])
  | Except.ok _ => (Except.ok (mapToAuthToken tp response.data), [request])

/- Claim theorems. -/

/-- C1 counterexample: register the falsy instance null under the key
svc; has reports the key present, yet get does not return the registered
value (it throws the not-registered error), refuting the claim that
after register(k, v) get(k) returns exactly v for every instance v. -/
theorem C1_counterexample :
    (ServiceContainer.register ServiceContainer.empty "svc" JSValue.vNull).has "svc" = true
    ∧ (ServiceContainer.register ServiceContainer.empty "svc" JSValue.vNull).get "svc"
        = Except.error (notRegisteredMsg "svc")
    ∧ (ServiceContainer.register ServiceContainer.empty "svc" JSValue.vNull).get "svc"
        ≠ Except.ok JSValue.vNull := by
  refine ⟨by decide, rfl, ?_⟩
  intro h
  simp [ServiceContainer.register, ServiceContainer.empty, mapSet,
    ServiceContainer.get, List.lookup, jsTruthy] at h

/-- C1 (amended to truthy instances): for every container, key k and
truthy instance v, after register(k, v) has(k) is true and get(k)
returns exactly v; and get on a key absent from the updated container
fails with the not-registered error, whose message names that key. -/
theorem C1_register_get_roundtrip (c : ServiceContainer) (k kAbs : String) (v : JSValue)
    (hv : jsTruthy v = true) (hne : kAbs ≠ k) (habs : List.lookup kAbs c = none) :
    (c.register k v).has k = true
    ∧ (c.register k v).get k = Except.ok v
    ∧ (c.register k v).get kAbs = Except.error (notRegisteredMsg kAbs)
    ∧ strContains (notRegisteredMsg kAbs) kAbs := by
  refine ⟨?_, ?_, ?_, ?_⟩
  · simp [ServiceContainer.has, ServiceContainer.register, lookup_mapSet_self]
  · simp [ServiceContainer.get, ServiceContainer.register, lookup_mapSet_self, hv]
  · simp [ServiceContainer.get, ServiceContainer.register,
      lookup_mapSet_ne c k kAbs v hne, habs, jsTruthy]
  · exact ⟨"Service \x27", "\x27 not registered", rfl⟩

/-- C1 witness: the amended round-trip at the container holding only the
object instance 0 under key a, with absent key b. -/
theorem C1_register_get_roundtrip_witness :
    (ServiceContainer.register ServiceContainer.empty "a" (JSValue.vObj 0)).has "a" = true
    ∧ (ServiceContainer.register ServiceContainer.empty "a" (JSValue.vObj 0)).get "a"
        = Except.ok (JSValue.vObj 0)
    ∧ (ServiceContainer.register ServiceContainer.empty "a" (JSValue.vObj 0)).get "b"
        = Except.error (notRegisteredMsg "b")
    ∧ strContains (notRegisteredMsg "b") "b" :=
  C1_register_get_roundtrip ServiceContainer.empty "a" "b" (JSValue.vObj 0)
    (by decide) (by decide) (by decide)

/-- C8: clear never fails (it is a total operation on the state) and
after clear() has(k) is false for every previously registered key k. -/
theorem C8_clear_removes_all (c : ServiceContainer) (k : String)
    (_hk : c.has k = true) : (c.clear).has k = false := by
  simp [ServiceContainer.clear, ServiceContainer.has, List.lookup]

/-- C8 witness: clearing a container that holds key a makes has(a) false. -/
theorem C8_clear_removes_all_witness :
    ((ServiceContainer.register ServiceContainer.empty "a" (JSValue.vObj 0)).clear).has "a"
      = false :=
  C8_clear_removes_all (ServiceContainer.register ServiceContainer.empty "a" (JSValue.vObj 0))
    "a" (by decide)

/-- C9: for each falsy instance (null, 0, false, the empty string)
registered under key svc, has(svc) is true while get(svc) throws the
not-registered error naming svc: the presence check and the lookup
disagree about a registered entry. -/
theorem C9_falsy_registration_disagreement :
    (∀ v ∈ [JSValue.vNull, JSValue.vNum 0, JSValue.vBool false, JSValue.vStr ""],
      jsTruthy v = false
      ∧ (ServiceContainer.register ServiceContainer.empty "svc" v).has "svc" = true
      ∧ (ServiceContainer.register ServiceContainer.empty "svc" v).get "svc"
          = Except.error (notRegisteredMsg "svc"))
    ∧ strContains (notRegisteredMsg "svc") "svc" := by
  refine ⟨by decide, ⟨"Service \x27", "\x27 not registered", rfl⟩⟩

/-- C10: get and has are pure observers: any sequence of get and has
calls (failing gets included) leaves the entry table unchanged, so every
subsequent get and has result is what it was before the sequence; only
register and clear modify the state. -/
theorem C10_readers_preserve_state (c : ServiceContainer) (ops : List ReadOp) (k : String) :
    runReads c ops = c
    ∧ (runReads c ops).get k = c.get k
    ∧ (runReads c ops).has k = c.has k := by
  have h : runReads c ops = c := by
    induction ops with
    | nil => rfl
    | cons op rest ih => cases op <;> simpa [runReads, ServiceContainer.getOp,
        ServiceContainer.hasOp] using ih
  exact ⟨h, by rw [h], by rw [h]⟩

/-- C5: for every transport response produced by mapToHttpResponse, the
isSuccessStatusCode flag is true iff 200 <= status < 300; and the flag
is a pure function of the status code alone: any response sharing the
status has the same flag, whatever its text, headers and body, so it is
never independently settable. -/
theorem C5_success_flag_iff {T : Type} (r : AxiosResponse T) (t2 : String)
    (h2 : List (String × String)) (d2 : T) :
    ((mapToHttpResponse r).isSuccessStatusCode = true ↔ 200 ≤ r.status ∧ r.status < 300)
    ∧ (mapToHttpResponse ⟨r.status, t2, h2, d2⟩).isSuccessStatusCode
        = (mapToHttpResponse r).isSuccessStatusCode := by
  exact ⟨by simp [mapToHttpResponse], rfl⟩

/-- C4: for every response produced by the transport client,
ensureSuccessStatusCode fails exactly when the success flag is false,
returns normally exactly when it is true, and the error message carries
the numeric status code and the status text as substrings. -/
theorem C4_ensure_success_check {T : Type} (r : AxiosResponse T) :
    (ensureSuccessStatusCode (mapToHttpResponse r)
        = Except.error (httpErrorMessage r.status r.statusText)
      ↔ (mapToHttpResponse r).isSuccessStatusCode = false)
    ∧ (ensureSuccessStatusCode (mapToHttpResponse r) = Except.ok ()
      ↔ (mapToHttpResponse r).isSuccessStatusCode = true)
    ∧ strContains (httpErrorMessage r.status r.statusText) (toString r.status)
    ∧ strContains (httpErrorMessage r.status r.statusText) r.statusText := by
  refine ⟨?_, ?_, ?_, ?_⟩
  · cases hfl : (mapToHttpResponse r).isSuccessStatusCode <;>
      simp [ensureSuccessStatusCode, hfl] <;> rfl
  · cases hfl : (mapToHttpResponse r).isSuccessStatusCode <;>
      simp [ensureSuccessStatusCode, hfl]
  · exact ⟨"HTTP Error ", ": " ++ r.statusText,
      by simp [httpErrorMessage, String.append_assoc]⟩
  · exact ⟨"HTTP Error " ++ toString r.status ++ ": ", "",
      by simp [httpErrorMessage]⟩

/-- C7: addSeconds returns a Date holding exactly the input instant
advanced by s * 1000 milliseconds (s may be negative), allocates a fresh
reference distinct from the input even when s is zero, and leaves every
previously allocated Date, the input included, unmutated. -/
theorem C7_addSeconds_fresh_advance (h : DateHeap) (d r : Nat) (s : Int)
    (hd : d < h.next) (hr : r < h.next) :
    ((h.addSeconds d s).1.getTime (h.addSeconds d s).2 = h.getTime d + s * 1000)
    ∧ (h.addSeconds d s).2 ≠ d
    ∧ (h.addSeconds d s).1.getTime r = h.getTime r := by
  refine ⟨?_, ?_, ?_⟩
  · simp [DateHeap.addSeconds, DateHeap.newDate, DateHeap.getTime, addSecondsMillis]
  · simp only [DateHeap.addSeconds, DateHeap.newDate]
    omega
  · have hne : r ≠ h.next := Nat.ne_of_lt hr
    simp [DateHeap.addSeconds, DateHeap.newDate, DateHeap.getTime, hne]

/-- C7 witness: on a one-Date heap holding instant 0, addSeconds 0 5
yields a fresh reference holding 5000 and leaves Date 0 unchanged. -/
theorem C7_addSeconds_fresh_advance_witness :
    (((DateHeap.mk 1 (fun _ => 0)).addSeconds 0 5).1.getTime
        ((DateHeap.mk 1 (fun _ => 0)).addSeconds 0 5).2
      = (DateHeap.mk 1 (fun _ => 0)).getTime 0 + 5 * 1000)
    ∧ ((DateHeap.mk 1 (fun _ => 0)).addSeconds 0 5).2 ≠ 0
    ∧ ((DateHeap.mk 1 (fun _ => 0)).addSeconds 0 5).1.getTime 0
        = (DateHeap.mk 1 (fun _ => 0)).getTime 0 :=
  C7_addSeconds_fresh_advance ⟨1, fun _ => 0⟩ 0 0 5 (by decide) (by decide)

/-- C2: whenever the exchange for the token request succeeds, getToken
returns the token assembled from the response body, whose expiresAt is
the time source instant now advanced by expires_in seconds (expires_in
times 1000 milliseconds), computed through the injected time source. -/
theorem C2_getToken_success (config : AuthConfig) (tp : TimeProviderM)
    (send : HttpRequest → HttpResponseM AADTokenResponse)
    (hok : (send (createTokenRequest config)).isSuccessStatusCode = true) :
    (getToken config tp send).1 = Except.ok
      { accessToken := (send (createTokenRequest config)).data.access_token
        tokenType := (send (createTokenRequest config)).data.token_type
        expiresIn := (send (createTokenRequest config)).data.expires_in
        expiresAt := tp.nowMillis
          + (send (createTokenRequest config)).data.expires_in * 1000 } := by
  simp [getToken, ensureSuccessStatusCode, hok, mapToAuthToken,
    TimeProviderM.addSeconds, TimeProviderM.now, addSecondsMillis]

/-- C2 witness: with a 200 response carrying access_token X, token_type
Bearer and expires_in 3600, at now = 2023-01-01T12:00:00Z (epoch
millisecond 1672574400000), getToken returns the token X, Bearer, 3600
expiring at 2023-01-01T13:00:00Z (epoch millisecond 1672578000000). -/
theorem C2_getToken_success_witness :
    (getToken ⟨"tenant", "client", "secret", "scope"⟩ ⟨1672574400000⟩
        (fun _ => mapToHttpResponse ⟨200, "OK", [], ⟨"X", "Bearer", 3600⟩⟩)).1
      = Except.ok ⟨"X", "Bearer", 3600, 1672578000000⟩ := by
  rw [C2_getToken_success ⟨"tenant", "client", "secret", "scope"⟩ ⟨1672574400000⟩
    (fun _ => mapToHttpResponse ⟨200, "OK", [], ⟨"X", "Bearer", 3600⟩⟩) rfl]
  rfl

/-- The serialized token request body equals the literal template with
each configured value form URL-encoded: the four fixed keys and the
grant_type value are encode-invariant, so only the configured values
remain encoded. -/
theorem createTokenRequestBody_template (config : AuthConfig) :
    createTokenRequestBody config
      = "grant_type=client_credentials&client_id=" ++ formUrlEncode config.clientId
        ++ "&client_secret=" ++ formUrlEncode config.clientSecret
        ++ "&scope=" ++ formUrlEncode config.scope := by
  have e1 : formUrlEncode "grant_type" = "grant_type" := by decide
  have e2 : formUrlEncode "client_credentials" = "client_credentials" := by decide
  have e3 : formUrlEncode "client_id" = "client_id" := by decide
  have e4 : formUrlEncode "client_secret" = "client_secret" := by decide
  have e5 : formUrlEncode "scope" = "scope" := by decide
  have m1 : ("grant_type=client_credentials&client_id=" : String)
      = "grant_type" ++ "=" ++ "client_credentials" ++ "&" ++ "client_id" ++ "=" := by decide
  have m2 : ("&client_secret=" : String) = "&" ++ "client_secret" ++ "=" := by decide
  have m3 : ("&scope=" : String) = "&" ++ "scope" ++ "=" := by decide
  simp only [createTokenRequestBody, urlSearchParamsToString, encodePair]
  rw [e1, e2, e3, e4, e5, m1, m2, m3]
  simp only [String.append_assoc]

/-- C3: for every auth configuration, the token request is a POST to the
tenant-templated login.microsoftonline.com token endpoint with the form
content type, and its body is exactly the grant_type template with each
configured value form URL-encoded; in particular the default Graph scope
is percent-encoded to https%3A%2F%2Fgraph.microsoft.com%2F.default. -/
theorem C3_token_request_wire_format (config : AuthConfig) :
    createTokenRequest config
      = { url := "https://login.microsoftonline.com/" ++ config.tenantId
            ++ "/oauth2/v2.0/token"
          method := HttpMethod.POST
          headers := [("Content-Type", "application/x-www-form-urlencoded")]
          body := some ("grant_type=client_credentials&client_id="
            ++ formUrlEncode config.clientId
            ++ "&client_secret=" ++ formUrlEncode config.clientSecret
            ++ "&scope=" ++ formUrlEncode config.scope) }
    ∧ formUrlEncode "https://graph.microsoft.com/.default"
        = "https%3A%2F%2Fgraph.microsoft.com%2F.default" := by
  refine ⟨?_, by decide⟩
  simp only [createTokenRequest, HttpRequest.mk.injEq, Option.some.injEq]
  exact ⟨trivial, trivial, trivial, createTokenRequestBody_template config⟩

/-- C6: whenever the exchange for the token request yields a non-2xx
response, getToken fails with exactly the ensureSuccessStatusCode error
(carrying the status code and status text), produces no token, and has
sent exactly the one token request: no retry, no error transformation. -/
theorem C6_getToken_propagates_http_error (config : AuthConfig) (tp : TimeProviderM)
    (send : HttpRequest → HttpResponseM AADTokenResponse)
    (hfail : (send (createTokenRequest config)).isSuccessStatusCode = false) :
    getToken config tp send
      = (Except.error (httpErrorMessage (send (createTokenRequest config)).status
            (send (createTokenRequest config)).statusText),
         [createTokenRequest config]) := by
  simp [getToken, ensureSuccessStatusCode, hfail]

/-- C6 witness: a 400 Bad Request exchange makes getToken fail with the
message HTTP Error 400: Bad Request after a single request. -/
theorem C6_getToken_propagates_http_error_witness :
    getToken ⟨"tenant", "client", "secret", "scope"⟩ ⟨0⟩
        (fun _ => mapToHttpResponse ⟨400, "Bad Request", [], ⟨"", "", 0⟩⟩)
      = (Except.error "HTTP Error 400: Bad Request",
         [createTokenRequest ⟨"tenant", "client", "secret", "scope"⟩]) := by
  rw [C6_getToken_propagates_http_error ⟨"tenant", "client", "secret", "scope"⟩ ⟨0⟩
    (fun _ => mapToHttpResponse ⟨400, "Bad Request", [], ⟨"", "", 0⟩⟩) rfl]
  rfl

end TsPoc
